import Mathlib

/-!
Shallow embedding of src/service.py (epaper-display-panel).

Conventions used throughout:
- HTTP interaction is modelled by a fixed parameter describing what the
  server answers.  For the topology document this is a value of type
  Option MetaInfo: some doc models a 200 response whose JSON parses to
  doc, none models any non-200 response.  For image downloads the
  parameter is an Option PILImage: some img models a 200 response, none
  models any non-200 response (download_recent_image then returns None).
- Python exceptions are modelled with Except: Except.error carries the
  object state as mutated up to the point where the exception was
  raised, so partial mutation on error paths is observable.
- time.time() is modelled as a Nat argument called now, supplied by the
  caller of each operation.
- The Python dict current_screen_per_app is modelled as a total function
  Nat -> Option Nat: none models an absent key, and dict.get(k, 0)
  becomes (d k).getD 0.
- PIL images are modelled as a width, a height and a flat list of pixel
  values; ImageChops.difference is the pointwise absolute difference and
  bool(diff.getbbox()) is true exactly when some pixel of diff is
  nonzero.
-/

/-- One entry of the apps list in info.json: carries nb_screens. -/
structure AppInfo where
  nb_screens : Nat
deriving DecidableEq, Repr

/-- The parsed info.json document. -/
structure MetaInfo where
  apps : List AppInfo
deriving DecidableEq, Repr

/-- Model of a decoded PIL image: dimensions plus a flat pixel list. -/
structure PILImage where
  width : Nat
  height : Nat
  pixels : List Nat
deriving DecidableEq, Repr

/-- PIL size attribute: the (width, height) pair. -/
def PILImage.size (i : PILImage) : Nat × Nat := (i.width, i.height)

/-- ImageChops.difference: pointwise absolute difference of two images. -/
def imageChopsDifference (a b : PILImage) : PILImage :=
  { width := a.width, height := a.height
    pixels := List.zipWith (fun p q => max p q - min p q) a.pixels b.pixels }

/-- bool(img.getbbox()): true exactly when some pixel is nonzero. -/
def getbboxNonempty (i : PILImage) : Bool :=
  i.pixels.any (fun p => decide (p ≠ 0))

/-- Mutable state of DisplayThread (fields of self in service.py). -/
structure DisplayState where
  current_app : Nat
  current_screen_per_app : Nat → Option Nat
  metainfo : Option MetaInfo
  last_online_check : Option Nat
  last_image : Option PILImage
  force_update : Bool
  last_app_switch : Nat

/-- The initial DisplayThread state built in DisplayThread.__init__
(current_app 0, empty screen dict, no metainfo, no online check, no last
image, no forced update, last_app_switch set to construction time). -/
def DisplayState.init (now : Nat) : DisplayState :=
  { current_app := 0
    current_screen_per_app := fun _ => none
    metainfo := none
    last_online_check := none
    last_image := none
    force_update := false
    last_app_switch := now }

/-- DisplayThread.images_differ: true if either image is None, if the
sizes differ, or if the pointwise difference has a nonempty bounding
box. -/
def images_differ (img1 img2 : Option PILImage) : Bool :=
  match img1, img2 with
  | none, _ => true
  | _, none => true
  | some i1, some i2 =>
    if i1.size ≠ i2.size then true
    else getbboxNonempty (imageChopsDifference i1 i2)

/-- DisplayThread.get_metainfo.  The Python body only acts when
self.metainfo is None: it fetches info.json and returns the parsed JSON
on a 200 (without ever assigning self.metainfo), and raises on any other
status.  When self.metainfo is not None the function falls through and
returns None.  The result triple is (returned value, state after the
call, number of HTTP GET requests issued by the call). -/
def get_metainfo (server : Option MetaInfo) (s : DisplayState) :
    Except DisplayState (Option MetaInfo × DisplayState × Nat) :=
  match s.metainfo with
  | none =>
    match server with
    | some doc => Except.ok (some doc, s, 1)
    | none => Except.error s
  | some _ => Except.ok (none, s, 0)

/-- DisplayThread.get_nb_apps: len(get_metainfo()["apps"]).  When
get_metainfo returns None (cache field non-empty) the subscript raises a
TypeError, modelled as an error. -/
def get_nb_apps (server : Option MetaInfo) (s : DisplayState) :
    Except DisplayState Nat :=
  match get_metainfo server s with
  | Except.ok (some doc, _, _) => Except.ok doc.apps.length
  | Except.ok (none, s2, _) => Except.error s2
  | Except.error s2 => Except.error s2

/-- DisplayThread.get_nb_screens: get_metainfo()["apps"][app]["nb_screens"].
An out-of-range app index raises an IndexError, modelled as an error. -/
def get_nb_screens (server : Option MetaInfo) (s : DisplayState) (app : Nat) :
    Except DisplayState Nat :=
  match get_metainfo server s with
  | Except.ok (some doc, s2, _) =>
    match doc.apps.get? app with
    | some ai => Except.ok ai.nb_screens
    | none => Except.error s2
  | Except.ok (none, s2, _) => Except.error s2
  | Except.error s2 => Except.error s2

/-- DisplayThread.switch_to_next_app.  Mutations happen in Python order:
last_app_switch is assigned first, then current_app is advanced modulo
the app count, then the screen entry of the new current_app is clamped
modulo its screen count, then force_update is set.  A metadata failure
raises, leaving the mutations made so far in place; advancing modulo an
app count of zero raises a ZeroDivisionError. -/
def switch_to_next_app (server : Option MetaInfo) (now : Nat)
    (s : DisplayState) : Except DisplayState DisplayState :=
  let s1 : DisplayState := { s with last_app_switch := now }
  match get_nb_apps server s1 with
  | Except.error _ => Except.error s1
  | Except.ok nbApps =>
    if nbApps = 0 then Except.error s1
    else
      let s2 : DisplayState := { s1 with current_app := (s1.current_app + 1) % nbApps }
      match get_nb_screens server s2 s2.current_app with
      | Except.error _ => Except.error s2
      | Except.ok nbScreens =>
        if nbScreens = 0 then Except.error s2
        else
          Except.ok
            { s2 with
              current_screen_per_app := fun k =>
                if k = s2.current_app then
                  some ((s2.current_screen_per_app s2.current_app).getD 0 % nbScreens)
                else s2.current_screen_per_app k
              force_update := true }

/-- DisplayThread.switch_to_next_screen: increments the screen entry of
the current app modulo its screen count (absent entry read as 0) and
sets force_update.  A metadata failure raises before any mutation. -/
def switch_to_next_screen (server : Option MetaInfo) (s : DisplayState) :
    Except DisplayState DisplayState :=
  match get_nb_screens server s s.current_app with
  | Except.error _ => Except.error s
  | Except.ok nbScreens =>
    if nbScreens = 0 then Except.error s
    else
      Except.ok
        { s with
          current_screen_per_app := fun k =>
            if k = s.current_app then
              some (((s.current_screen_per_app s.current_app).getD 0 + 1) % nbScreens)
            else s.current_screen_per_app k
          force_update := true }

/-- DisplayThread.should_update: true (clearing the flag) when
force_update is set; otherwise true exactly when no online check has
happened yet or more than 60 seconds have elapsed since the last one.
Returns the decision together with the state after the call. -/
def should_update (now : Nat) (s : DisplayState) : Bool × DisplayState :=
  if s.force_update then (true, { s with force_update := false })
  else if s.last_online_check.elim true (fun t => decide (now - t > 60)) then (true, s)
  else (false, s)

/-- DisplayThread.should_switch_to_next_app_automatically: true when more
than 60 minutes have elapsed since the last app switch. -/
def should_switch_to_next_app_automatically (now : Nat) (s : DisplayState) : Bool :=
  decide (now > s.last_app_switch + 60 * 60)

/-- Hardware calls issued by DisplayThread.display on the panel driver. -/
inductive DispEvent where
  | init
  | displayBuf
  | sleep
deriving DecidableEq, Repr

/-- Whether the panel driver calls epd.init and epd.display succeed when
invoked; models the external hardware collaborator. -/
structure EpdBehavior where
  initOk : Bool
  displayOk : Bool
deriving DecidableEq, Repr

/-- DisplayThread.display: try epd.init, compose the frame, push the
buffer; finally epd.sleep.  Returns the trace of driver calls and
whether the call completed without an exception.  Passing image = None
raises an AttributeError when the paste position reads image.width, so
the composition fails after init and before the buffer push; epd.sleep
still runs via the finally block on every path. -/
def display (epd : EpdBehavior) (image : Option PILImage) :
    List DispEvent × Bool :=
  if epd.initOk = false then ([DispEvent.init, DispEvent.sleep], false)
  else
    match image with
    | none => ([DispEvent.init, DispEvent.sleep], false)
    | some _ =>
      if epd.displayOk then ([DispEvent.init, DispEvent.displayBuf, DispEvent.sleep], true)
      else ([DispEvent.init, DispEvent.displayBuf, DispEvent.sleep], false)

/-- DisplayThread.update: download the image for the current (app,
screen) coordinate, record the check time, and when the candidate
differs from the last rendered frame run a display cycle and replace the
stored frame.  fetchResult models what download_recent_image returned
(none on any non-200 status).  The result pairs the final state (or the
state at the point an exception escaped) with the driver-call trace. -/
def update (epd : EpdBehavior) (fetchResult : Option PILImage) (now : Nat)
    (s : DisplayState) : Except DisplayState DisplayState × List DispEvent :=
  let s1 : DisplayState := { s with last_online_check := some now }
  if images_differ s1.last_image fetchResult then
    match display epd fetchResult with
    | (trace, true) => (Except.ok { s1 with last_image := fetchResult }, trace)
    | (trace, false) => (Except.error s1, trace)
  else (Except.ok s1, [])

/-- Inputs one iteration of the DisplayThread.run loop observes: the
kill flag at the top of the loop, the current clock value, and what the
image download would return this cycle. -/
structure CycleInput where
  killNow : Bool
  now : Nat
  fetchResult : Option PILImage

/-- One iteration body of the DisplayThread.run loop: the should_update
branch (with its update call) followed by the automatic app switch
branch.  Errors abort the iteration at the Python point of the raise. -/
def runStep (server : Option MetaInfo) (epd : EpdBehavior) (inp : CycleInput)
    (s : DisplayState) : Except DisplayState DisplayState × List DispEvent :=
  let (su, s1) := should_update inp.now s
  match (if su then update epd inp.fetchResult inp.now s1 else (Except.ok s1, [])) with
  | (Except.error s2, tr) => (Except.error s2, tr)
  | (Except.ok s2, tr) =>
    if should_switch_to_next_app_automatically inp.now s2 then
      match switch_to_next_app server inp.now s2 with
      | Except.error s3 => (Except.error s3, tr)
      | Except.ok s3 => (Except.ok s3, tr)
    else (Except.ok s2, tr)

/-- How the while loop of DisplayThread.run ended: a clean exit after
observing the kill flag, an exit via an uncaught exception, or still
running when the supplied schedule of cycle inputs ran out. -/
inductive LoopResult where
  | exitedClean (s : DisplayState)
  | exitedError (s : DisplayState)
  | ranOut (s : DisplayState)

/-- True when the loop actually exited (cleanly or by exception). -/
def LoopResult.isExit : LoopResult → Bool
  | LoopResult.exitedClean _ => true
  | LoopResult.exitedError _ => true
  | LoopResult.ranOut _ => false

/-- The while loop of DisplayThread.run, driven by a finite schedule of
per-iteration inputs; collects the driver-call trace. -/
def runLoop (server : Option MetaInfo) (epd : EpdBehavior) :
    List CycleInput → DisplayState → LoopResult × List DispEvent
  | [], s => (LoopResult.ranOut s, [])
  | inp :: rest, s =>
    if inp.killNow then (LoopResult.exitedClean s, [])
    else
      match runStep server epd inp s with
      | (Except.error s2, tr) => (LoopResult.exitedError s2, tr)
      | (Except.ok s2, tr) =>
        let (res, tr2) := runLoop server epd rest s2
        (res, tr ++ tr2)

/-- Events visible at the scope of DisplayThread.run: driver calls from
inside the loop, plus the rpi.module_exit cleanup call. -/
inductive RunEvent where
  | disp (e : DispEvent)
  | moduleExit
deriving DecidableEq, Repr

/-- DisplayThread.run: runs the loop; the finally block appends the
rpi.module_exit call on both the clean-exit path and the exception path.
When the schedule runs out the thread is still inside the loop, so the
cleanup has not happened yet. -/
def run (server : Option MetaInfo) (epd : EpdBehavior)
    (inputs : List CycleInput) (s : DisplayState) :
    LoopResult × List RunEvent :=
  match runLoop server epd inputs s with
  | (LoopResult.ranOut s2, tr) => (LoopResult.ranOut s2, tr.map RunEvent.disp)
  | (res, tr) => (res, tr.map RunEvent.disp ++ [RunEvent.moduleExit])

/-- What the supervisory loop in main observes during one iteration:
whether a termination signal has set killer.kill_now, and whether each
worker thread is still alive. -/
structure SupObs where
  killNow : Bool
  displayAlive : Bool
  buttonAlive : Bool
deriving DecidableEq, Repr

/-- The supervisory polling loop of main: exits as soon as kill_now is
set (by a signal, or internally after observing a dead thread); a dead
thread sets kill_now and clears the success flag.  Returns some success
when the loop exited, none when the observation schedule ran out first.
The killNow argument is the internally-set flag carried across
iterations. -/
def superviseLoop (obs : List SupObs) (killNow success : Bool) : Option Bool :=
  if killNow then some success
  else
    match obs with
    | [] => none
    | o :: rest =>
      if o.killNow then some success
      else
        let dead := !o.displayAlive || !o.buttonAlive
        superviseLoop rest dead (if dead then false else success)

/-- How each worker thread actually ended by the time main joins it.
thread.join() in Python returns normally whether or not the thread died
from an exception, and main never inspects this. -/
structure JoinInfo where
  displayClean : Bool
  buttonClean : Bool
deriving DecidableEq, Repr

/-- Exit status of main (assuming startup succeeded): 0 when the success
flag survived the supervisory loop, 1 otherwise; none when the loop
never exited in the supplied schedule.  The join outcomes j are ignored
because the code never reads them. -/
def mainExit (obs : List SupObs) (_j : JoinInfo) : Option Nat :=
  match superviseLoop obs false true with
  | none => none
  | some success => some (if success then 0 else 1)

/-- The nb_screens value recorded in the metadata for app index k
(0 when k is out of range; only used under the bound k < apps.length). -/
def nbScreensAt (m : MetaInfo) (k : Nat) : Nat :=
  ((m.apps.get? k).map AppInfo.nb_screens).getD 0

/-- Hypotheses of the navigation claims on the metadata: at least one
app, and every app has at least one screen. -/
def goodMeta (m : MetaInfo) : Prop :=
  0 < m.apps.length ∧ ∀ k < m.apps.length, 1 ≤ nbScreensAt m k

instance (m : MetaInfo) : Decidable (goodMeta m) := by
  unfold goodMeta; infer_instance

/-- The navigation invariant of the spec, relative to metadata m:
current_app indexes the app list, and for every app index the effective
screen index (stored entry, absent read as 0) is below that app screen
count. -/
def NavInv (m : MetaInfo) (s : DisplayState) : Prop :=
  s.current_app < m.apps.length ∧
  ∀ k < m.apps.length, (s.current_screen_per_app k).getD 0 < nbScreensAt m k

instance (m : MetaInfo) (s : DisplayState) : Decidable (NavInv m s) := by
  unfold NavInv; infer_instance

/-- A navigation operation: a button-triggered app advance, a
button-triggered screen advance, or the automatic app advance of the
display loop (which calls the same switch_to_next_app method). -/
inductive NavOp where
  | nextApp (now : Nat)
  | nextScreen
  | autoAdvance (now : Nat)

/-- Dispatch of one navigation operation to the method it invokes. -/
def applyNavOp (server : Option MetaInfo) (op : NavOp) (s : DisplayState) :
    Except DisplayState DisplayState :=
  match op with
  | NavOp.nextApp now => switch_to_next_app server now s
  | NavOp.nextScreen => switch_to_next_screen server s
  | NavOp.autoAdvance now => switch_to_next_app server now s

/-- Sequential application of navigation operations, stopping at the
first raised exception. -/
def applyNavOps (server : Option MetaInfo) :
    List NavOp → DisplayState → Except DisplayState DisplayState
  | [], s => Except.ok s
  | op :: rest, s =>
    match applyNavOp server op s with
    | Except.ok s2 => applyNavOps server rest s2
    | Except.error s2 => Except.error s2

/-- The DisplayThread state at the end of an operation, whether the
operation returned normally or raised. -/
def stateOfExcept : Except DisplayState DisplayState → DisplayState
  | Except.ok s => s
  | Except.error s => s

/-- With well-formed metadata served and an empty metainfo cache field
(which is its state throughout any actual process, since nothing ever
assigns it), switch_to_next_app succeeds and the resulting state is
given field by field. -/
lemma switch_to_next_app_eq (m : MetaInfo) (now : Nat) (s : DisplayState)
    (hm : goodMeta m) (h0 : s.metainfo = none) :
    switch_to_next_app (some m) now s = Except.ok
      { current_app := (s.current_app + 1) % m.apps.length
        current_screen_per_app := fun k =>
          if k = (s.current_app + 1) % m.apps.length then
            some ((s.current_screen_per_app ((s.current_app + 1) % m.apps.length)).getD 0
              % nbScreensAt m ((s.current_app + 1) % m.apps.length))
          else s.current_screen_per_app k
        metainfo := none
        last_online_check := s.last_online_check
        last_image := s.last_image
        force_update := true
        last_app_switch := now } := by
  obtain ⟨hlen, hscr⟩ := hm
  have hnew : (s.current_app + 1) % m.apps.length < m.apps.length :=
    Nat.mod_lt _ hlen
  have hai : m.apps[(s.current_app + 1) % m.apps.length]? =
      some (m.apps[(s.current_app + 1) % m.apps.length]) :=
    List.getElem?_eq_getElem hnew
  have hnb : nbScreensAt m ((s.current_app + 1) % m.apps.length) =
      m.apps[(s.current_app + 1) % m.apps.length].nb_screens := by
    simp [nbScreensAt, List.get?_eq_getElem?, hai]
  have hlen0 : m.apps.length ≠ 0 := Nat.pos_iff_ne_zero.mp hlen
  have hnb0 : m.apps[(s.current_app + 1) % m.apps.length].nb_screens ≠ 0 := by
    have h1 := hscr _ hnew
    rw [hnb] at h1
    omega
  simp [switch_to_next_app, get_nb_apps, get_nb_screens, get_metainfo, h0,
    List.get?_eq_getElem?, hai, hlen0, hnb0, hnb]

/-- With well-formed metadata served, an empty metainfo cache field and
a current_app in range, switch_to_next_screen succeeds and the resulting
state is given field by field. -/
lemma switch_to_next_screen_eq (m : MetaInfo) (s : DisplayState)
    (h0 : s.metainfo = none) (hca : s.current_app < m.apps.length)
    (hscr : 1 ≤ nbScreensAt m s.current_app) :
    switch_to_next_screen (some m) s = Except.ok
      { s with
        current_screen_per_app := fun k =>
          if k = s.current_app then
            some (((s.current_screen_per_app s.current_app).getD 0 + 1)
              % nbScreensAt m s.current_app)
          else s.current_screen_per_app k
        force_update := true } := by
  have hai : m.apps[s.current_app]? = some (m.apps[s.current_app]) :=
    List.getElem?_eq_getElem hca
  have hnb : nbScreensAt m s.current_app = (m.apps[s.current_app]).nb_screens := by
    simp [nbScreensAt, List.get?_eq_getElem?, hai]
  have hnb0 : (m.apps[s.current_app]).nb_screens ≠ 0 := by
    rw [hnb] at hscr; omega
  simp [switch_to_next_screen, get_nb_screens, get_metainfo, h0,
    List.get?_eq_getElem?, hai, hnb0, hnb]

/-- switch_to_next_app succeeds and preserves the navigation invariant
and the emptiness of the metainfo cache field. -/
lemma switch_to_next_app_preserves (m : MetaInfo) (now : Nat) (s : DisplayState)
    (hm : goodMeta m) (h0 : s.metainfo = none) (hInv : NavInv m s) :
    ∃ s2, switch_to_next_app (some m) now s = Except.ok s2 ∧
      NavInv m s2 ∧ s2.metainfo = none := by
  refine ⟨_, switch_to_next_app_eq m now s hm h0, ⟨?_, ?_⟩, rfl⟩
  · exact Nat.mod_lt _ hm.1
  · intro k hk
    by_cases hkeq : k = (s.current_app + 1) % m.apps.length
    · subst hkeq
      have hpos : 0 < nbScreensAt m ((s.current_app + 1) % m.apps.length) := hm.2 _ hk
      simpa using Nat.mod_lt _ hpos
    · simpa [hkeq] using hInv.2 k hk

/-- switch_to_next_screen succeeds and preserves the navigation
invariant and the emptiness of the metainfo cache field. -/
lemma switch_to_next_screen_preserves (m : MetaInfo) (s : DisplayState)
    (hm : goodMeta m) (h0 : s.metainfo = none) (hInv : NavInv m s) :
    ∃ s2, switch_to_next_screen (some m) s = Except.ok s2 ∧
      NavInv m s2 ∧ s2.metainfo = none := by
  refine ⟨_, switch_to_next_screen_eq m s h0 hInv.1 (hm.2 _ hInv.1), ⟨?_, ?_⟩, h0⟩
  · exact hInv.1
  · intro k hk
    by_cases hkeq : k = s.current_app
    · subst hkeq
      have hpos : 0 < nbScreensAt m s.current_app := hm.2 _ hk
      simpa using Nat.mod_lt _ hpos
    · simpa [hkeq] using hInv.2 k hk

/-- Every sequence of navigation operations succeeds and preserves the
navigation invariant, when the server consistently serves well-formed
metadata and the metainfo cache field is empty. -/
lemma applyNavOps_preserves (m : MetaInfo) (hm : goodMeta m) :
    ∀ ops : List NavOp, ∀ s : DisplayState, s.metainfo = none → NavInv m s →
      ∃ s2, applyNavOps (some m) ops s = Except.ok s2 ∧
        NavInv m s2 ∧ s2.metainfo = none := by
  intro ops
  induction ops with
  | nil => exact fun s h0 hInv => ⟨s, rfl, hInv, h0⟩
  | cons op rest ih =>
    intro s h0 hInv
    have hstep : ∃ s2, applyNavOp (some m) op s = Except.ok s2 ∧
        NavInv m s2 ∧ s2.metainfo = none := by
      cases op with
      | nextApp now => exact switch_to_next_app_preserves m now s hm h0 hInv
      | nextScreen => exact switch_to_next_screen_preserves m s hm h0 hInv
      | autoAdvance now => exact switch_to_next_app_preserves m now s hm h0 hInv
    obtain ⟨s2, heq, hInv2, h02⟩ := hstep
    obtain ⟨s3, heq3, hInv3, h03⟩ := ih s2 h02 hInv2
    exact ⟨s3, by simp [applyNavOps, heq, heq3], hInv3, h03⟩

/-- images_differ is true whenever its second argument is None. -/
lemma images_differ_none_right (i : Option PILImage) :
    images_differ i none = true := by
  cases i <;> rfl

/-- The pointwise absolute difference of two naturals is zero exactly
when they are equal. -/
lemma absdiff_ne_zero (a b : Nat) : max a b - min a b ≠ 0 ↔ a ≠ b := by
  rcases Nat.le_total a b with h | h
  · rw [Nat.max_eq_right h, Nat.min_eq_left h]; omega
  · rw [Nat.max_eq_left h, Nat.min_eq_right h]; omega

/-- For equal-length pixel lists, some pointwise absolute difference is
nonzero exactly when the lists differ. -/
lemma zipWith_absdiff_any (l1 : List Nat) :
    ∀ l2 : List Nat, l1.length = l2.length →
      (((List.zipWith (fun p q => max p q - min p q) l1 l2).any
        (fun d => decide (d ≠ 0))) = true ↔ l1 ≠ l2) := by
  induction l1 with
  | nil =>
    intro l2 h
    cases l2 with
    | nil => simp
    | cons b t2 => simp at h
  | cons a t1 ih =>
    intro l2 h
    cases l2 with
    | nil => simp at h
    | cons b t2 =>
      have hlen : t1.length = t2.length := by simpa using h
      simp only [List.zipWith_cons_cons, List.any_cons, Bool.or_eq_true,
        decide_eq_true_eq, ih t2 hlen, absdiff_ne_zero, List.cons.injEq]
      constructor
      · rintro (hab | ht) heq
        · exact hab (by injection heq)
        · exact ht (by injection heq)
      · intro hne
        by_cases hab : a = b
        · refine Or.inr fun ht => hne ?_
          rw [hab, ht]
        · exact Or.inl hab

/-- C5: images_differ is a pure function with images_differ X X false,
true whenever an argument is None, true whenever the dimensions differ,
and for same-sized well-formed bitmaps true exactly when some pixel
differs. -/
theorem images_differ_spec :
    (∀ X : PILImage, images_differ (some X) (some X) = false) ∧
    (∀ b : Option PILImage, images_differ none b = true) ∧
    (∀ a : Option PILImage, images_differ a none = true) ∧
    (∀ i1 i2 : PILImage, i1.size ≠ i2.size →
      images_differ (some i1) (some i2) = true) ∧
    (∀ i1 i2 : PILImage, i1.size = i2.size →
      i1.pixels.length = i1.width * i1.height →
      i2.pixels.length = i2.width * i2.height →
      (images_differ (some i1) (some i2) = true ↔
        ∃ k, i1.pixels.get? k ≠ i2.pixels.get? k)) := by
  refine ⟨?_, fun b => by cases b <;> rfl, images_differ_none_right, ?_, ?_⟩
  · intro X
    have h := zipWith_absdiff_any X.pixels X.pixels rfl
    have h2 : ((List.zipWith (fun p q => max p q - min p q) X.pixels X.pixels).any
        (fun d => decide (d ≠ 0))) = false :=
      Bool.eq_false_iff.mpr fun hb => (h.mp hb) rfl
    simp [images_differ, getbboxNonempty, imageChopsDifference, h2]
  · intro i1 i2 hsz
    simp [images_differ, hsz]
  · intro i1 i2 hsz hl1 hl2
    have hw : i1.width = i2.width := congrArg Prod.fst hsz
    have hh : i1.height = i2.height := congrArg Prod.snd hsz
    have hlen : i1.pixels.length = i2.pixels.length := by rw [hl1, hl2, hw, hh]
    have hz := zipWith_absdiff_any i1.pixels i2.pixels hlen
    have hred : images_differ (some i1) (some i2) =
        ((List.zipWith (fun p q => max p q - min p q) i1.pixels i2.pixels).any
          (fun d => decide (d ≠ 0))) := by
      simp [images_differ, hsz, getbboxNonempty, imageChopsDifference]
    rw [hred, hz]
    constructor
    · intro hne
      by_contra hno
      push_neg at hno
      exact hne (List.ext_get? hno)
    · rintro ⟨k, hk⟩ heq
      exact hk (by rw [heq])

/-- C3: for every sequence of navigation operations, given fixed served
metadata with at least one app and every screen count at least 1, the
operations all succeed, current_app stays a valid index into the app
list, and the effective screen index of every app (in particular the
current one) stays strictly below that app screen count. -/
theorem nav_sequences_preserve_invariant (m : MetaInfo) (ops : List NavOp)
    (s : DisplayState) (hm : goodMeta m) (h0 : s.metainfo = none)
    (hInv : NavInv m s) :
    ∃ s2, applyNavOps (some m) ops s = Except.ok s2 ∧ NavInv m s2 :=
  (applyNavOps_preserves m hm ops s h0 hInv).imp fun _ h => ⟨h.1, h.2.1⟩

/-- C6: an app advance sets current_app to (current_app + 1) modulo the
app count (wrapping from the last index to 0), records the switch time,
stores for the new current_app its previous entry (absent read as 0)
clamped modulo the new app screen count, sets force_update, and leaves
the entries of all other apps untouched. -/
theorem switch_to_next_app_spec (m : MetaInfo) (now : Nat) (s : DisplayState)
    (hm : goodMeta m) (h0 : s.metainfo = none) :
    ∃ s2, switch_to_next_app (some m) now s = Except.ok s2 ∧
      s2.current_app = (s.current_app + 1) % m.apps.length ∧
      (s.current_app = m.apps.length - 1 → s2.current_app = 0) ∧
      s2.last_app_switch = now ∧
      s2.force_update = true ∧
      s2.current_screen_per_app s2.current_app =
        some ((s.current_screen_per_app s2.current_app).getD 0
          % nbScreensAt m s2.current_app) ∧
      (∀ k, k ≠ s2.current_app →
        s2.current_screen_per_app k = s.current_screen_per_app k) := by
  refine ⟨_, switch_to_next_app_eq m now s hm h0, rfl, ?_, rfl, rfl, ?_, ?_⟩
  · intro hlast
    show (s.current_app + 1) % m.apps.length = 0
    rw [hlast, Nat.sub_add_cancel hm.1, Nat.mod_self]
  · simp
  · intro k hk
    simp [hk]

/-- C7: a screen advance increments the stored screen entry of the
current app (absent read as 0) modulo the current app screen count and
sets force_update, leaving every other app entry unchanged; moreover an
app advance never changes any stored screen entry of an
invariant-satisfying state (the clamp is the identity there), so
returning to an app finds the screen previously chosen for it. -/
theorem switch_to_next_screen_spec (m : MetaInfo) (s : DisplayState)
    (hm : goodMeta m) (h0 : s.metainfo = none) (hInv : NavInv m s) :
    (∃ s2, switch_to_next_screen (some m) s = Except.ok s2 ∧
      s2.current_app = s.current_app ∧
      s2.force_update = true ∧
      s2.current_screen_per_app s.current_app =
        some (((s.current_screen_per_app s.current_app).getD 0 + 1)
          % nbScreensAt m s.current_app) ∧
      (∀ k, k ≠ s.current_app →
        s2.current_screen_per_app k = s.current_screen_per_app k)) ∧
    (∀ now s2, switch_to_next_app (some m) now s = Except.ok s2 →
      ∀ k v, s.current_screen_per_app k = some v →
        s2.current_screen_per_app k = some v) := by
  constructor
  · refine ⟨_, switch_to_next_screen_eq m s h0 hInv.1 (hm.2 _ hInv.1),
      rfl, rfl, ?_, ?_⟩
    · simp
    · intro k hk
      simp [hk]
  · intro now s2 heq k v hv
    rw [switch_to_next_app_eq m now s hm h0] at heq
    injection heq with h
    subst h
    by_cases hk : k = (s.current_app + 1) % m.apps.length
    · subst hk
      have hnew : (s.current_app + 1) % m.apps.length < m.apps.length :=
        Nat.mod_lt _ hm.1
      have hvlt := hInv.2 _ hnew
      rw [hv] at hvlt
      simp only [Option.getD_some] at hvlt
      simp [hv, Nat.mod_eq_of_lt hvlt]
    · simp [hk, hv]

/-- C10: when the metadata fetch fails (server answers non-200) during
an app advance, the operation raises after last_app_switch has already
been set to the current time, while current_app, the per-app screen
mapping, force_update, the last image and the last online check are all
left unchanged. -/
theorem switch_to_next_app_metadata_failure (now : Nat) (s : DisplayState)
    (h0 : s.metainfo = none) :
    ∃ s2, switch_to_next_app none now s = Except.error s2 ∧
      s2.last_app_switch = now ∧
      s2.current_app = s.current_app ∧
      s2.current_screen_per_app = s.current_screen_per_app ∧
      s2.force_update = s.force_update ∧
      s2.last_image = s.last_image ∧
      s2.last_online_check = s.last_online_check := by
  refine ⟨{ s with last_app_switch := now }, ?_, rfl, rfl, rfl, rfl, rfl, rfl⟩
  simp [switch_to_next_app, get_nb_apps, get_metainfo, h0]

/-- C4: should_update returns true and clears the flag whenever
force_update is set; with the flag clear and a recorded previous check
it returns true exactly when more than 60 seconds have elapsed, leaving
the state unchanged; with the flag clear and no recorded check it
returns true; a second call after a flag-triggered call decides on
elapsed time alone; and update records the attempt time whether the
fetch succeeded or not. -/
theorem should_update_spec (now now2 : Nat) (s : DisplayState) :
    (s.force_update = true →
      should_update now s = (true, { s with force_update := false })) ∧
    (s.force_update = false → ∀ t0, s.last_online_check = some t0 →
      ((should_update now s).1 = true ↔ now - t0 > 60) ∧
      (should_update now s).2 = s) ∧
    (s.force_update = false → s.last_online_check = none →
      should_update now s = (true, s)) ∧
    (s.force_update = true → ∀ t0, s.last_online_check = some t0 →
      ((should_update now2 (should_update now s).2).1 = true ↔
        now2 - t0 > 60)) ∧
    (∀ epd img,
      (stateOfExcept (update epd img now s).1).last_online_check = some now) := by
  refine ⟨?_, ?_, ?_, ?_, ?_⟩
  · intro h
    simp [should_update, h]
  · intro h t0 ht
    constructor
    · by_cases hd : now - t0 > 60 <;> simp [should_update, h, ht, hd]
    · by_cases hd : now - t0 > 60 <;> simp [should_update, h, ht, hd]
  · intro h hn
    simp [should_update, h, hn]
  · intro h t0 ht
    have h1 : (should_update now s).2 = { s with force_update := false } := by
      simp [should_update, h]
    rw [h1]
    by_cases hd : now2 - t0 > 60 <;> simp [should_update, ht, hd]
  · intro epd img
    rcases hd : display epd img with ⟨tr, ok⟩
    by_cases hi : images_differ s.last_image img <;>
      cases ok <;> simp [update, hi, hd, stateOfExcept]

/-- display called with image None always raises (the paste position
reads image.width) and never pushes a buffer; helper shared by the
fetch-failure analysis. -/
lemma display_none_eq (epd : EpdBehavior) :
    display epd none = ([DispEvent.init, DispEvent.sleep], false) := by
  cases h : epd.initOk <;> simp [display, h]

/-- C1 (behaviour of the code at the failing input): when the image
download returns None, images_differ against any previous frame is
true, so update calls display with None; that call raises, so the
update cycle ends in an uncaught exception with only last_online_check
changed and the last rendered frame still in place, and the frame
buffer is never pushed.  The display thread therefore crashes instead
of continuing to the next poll. -/
theorem update_fetch_failure_crashes (epd : EpdBehavior) (now : Nat)
    (s : DisplayState) :
    (update epd none now s).1 =
      Except.error { s with last_online_check := some now } ∧
    DispEvent.displayBuf ∉ (update epd none now s).2 := by
  have hdiff : images_differ s.last_image none = true := images_differ_none_right _
  constructor
  · simp [update, hdiff, display_none_eq]
  · simp [update, hdiff, display_none_eq]

/-- C2 (behaviour of the code): a successful get_metainfo call returns
the freshly fetched document together with an unchanged state (the
metainfo field is still empty afterwards, so every further call fetches
again) and performs one HTTP GET per call; and if the cache field were
ever non-empty the function would return None rather than the cached
document. -/
theorem get_metainfo_no_caching (m m2 : MetaInfo) (s : DisplayState) :
    (s.metainfo = none →
      get_metainfo (some m) s = Except.ok (some m, s, 1)) ∧
    (∀ v s2 n, s.metainfo = none →
      get_metainfo (some m) s = Except.ok (v, s2, n) →
      s2.metainfo = none ∧ n = 1) ∧
    (s.metainfo = some m2 →
      get_metainfo (some m) s = Except.ok (none, s, 0)) := by
  refine ⟨?_, ?_, ?_⟩
  · intro h
    simp [get_metainfo, h]
  · intro v s2 n h heq
    have h1 : get_metainfo (some m) s = Except.ok (some m, s, 1) := by
      simp [get_metainfo, h]
    rw [h1] at heq
    have h2 : ((some m, s, 1) : Option MetaInfo × DisplayState × Nat) = (v, s2, n) := by
      injection heq
    have hs : s = s2 := congrArg (fun t => t.2.1) h2
    have hn : (1 : Nat) = n := congrArg (fun t => t.2.2) h2
    exact ⟨hs ▸ h, hn.symm⟩
  · intro h
    simp [get_metainfo, h]

/-- C8: the panel sleep call runs on every path of a single display
cycle (it sits in a finally block, so it runs even when the init,
composition or buffer push fails); and the run loop releases the
hardware module (rpi.module_exit in the finally block of run) on every
exit path of the loop, whether the loop exited cleanly on the kill flag
or via an uncaught exception. -/
theorem hardware_release_spec :
    (∀ (epd : EpdBehavior) (img : Option PILImage),
      DispEvent.sleep ∈ (display epd img).1) ∧
    (∀ (server : Option MetaInfo) (epd : EpdBehavior)
      (inputs : List CycleInput) (s : DisplayState),
      (run server epd inputs s).1.isExit = true →
      RunEvent.moduleExit ∈ (run server epd inputs s).2) := by
  constructor
  · intro epd img
    by_cases h : epd.initOk = false
    · simp [display, h]
    · cases img with
      | none => simp [display, h]
      | some i => by_cases h2 : epd.displayOk <;> simp [display, h, h2]
  · intro server epd inputs s hex
    rcases hr : runLoop server epd inputs s with ⟨res, tr⟩
    cases res with
    | ranOut s2 =>
      rw [show run server epd inputs s = (LoopResult.ranOut s2, tr.map RunEvent.disp)
        from by simp [run, hr]] at hex
      simp [LoopResult.isExit] at hex
    | exitedClean s2 =>
      simp [run, hr]
    | exitedError s2 =>
      simp [run, hr]

/-- The supervisory loop exits immediately, returning the current
success flag, once the internal kill flag is set. -/
lemma superviseLoop_killNow (obs : List SupObs) (success : Bool) :
    superviseLoop obs true success = some success := by
  cases obs <;> simp [superviseLoop]

/-- The exit status computed by main is fully determined by what the
supervisory loop observed: status 0 exactly when the loop exited with
the success flag still set, status 1 when the loop had observed a dead
worker, and the join outcomes of the workers are never consulted. -/
lemma mainExit_eq (obs : List SupObs) (j : JoinInfo) :
    (mainExit obs j = some 0 ↔ superviseLoop obs false true = some true) ∧
    (superviseLoop obs false true = some false → mainExit obs j = some 1) := by
  rcases h : superviseLoop obs false true with _ | b
  · constructor
    · simp [mainExit, h]
    · intro hc
      simp [h] at hc
  · cases b <;> simp [mainExit, h]

/-- A worker death observed by the supervisory poll before any shutdown
request forces exit status 1. -/
lemma mainExit_dead_observed (pre : List SupObs) :
    ∀ (o : SupObs) (post : List SupObs) (j : JoinInfo),
      (∀ p ∈ pre, p.killNow = false ∧ p.displayAlive = true ∧ p.buttonAlive = true) →
      o.killNow = false → (o.displayAlive = false ∨ o.buttonAlive = false) →
      mainExit (pre ++ o :: post) j = some 1 := by
  induction pre with
  | nil =>
    intro o post j _ hko hdead
    have hd : (!o.displayAlive || !o.buttonAlive) = true := by
      rcases hdead with h | h <;> simp [h]
    have hs : superviseLoop (o :: post) false true = some false := by
      simp [superviseLoop, hko, hd, superviseLoop_killNow]
    simp [mainExit, hs]
  | cons p rest ih =>
    intro o post j hpre hko hdead
    obtain ⟨hp1, hp2, hp3⟩ := hpre p (List.mem_cons_self p rest)
    have hrest : ∀ q ∈ rest, q.killNow = false ∧ q.displayAlive = true ∧ q.buttonAlive = true :=
      fun q hq => hpre q (List.mem_cons_of_mem p hq)
    have hstep : superviseLoop ((p :: rest) ++ o :: post) false true =
        superviseLoop (rest ++ o :: post) false true := by
      simp [superviseLoop, hp1, hp2, hp3]
    have hx := ih o post j hrest hko hdead
    simp only [mainExit, List.cons_append, hstep] at *
    exact hx

/-- C9 counterexample: the claim fails on the code.  With shutdown
requested by a signal on the first poll and the display worker dying
before the join instead of stopping cleanly, main still exits with
status 0: the code never consults how the joined workers actually
ended, so the both-workers-stopped-cleanly conjunct of the claimed
equivalence is not implied by a zero exit status. -/
theorem main_exit_claim_false :
    ¬ (∀ (obs : List SupObs) (j : JoinInfo),
      mainExit obs j = some 0 ↔
        (superviseLoop obs false true = some true ∧
          j.displayClean = true ∧ j.buttonClean = true)) := by
  intro hclaim
  have h2 := (hclaim [{ killNow := true, displayAlive := true, buttonAlive := true }]
      { displayClean := false, buttonClean := true }).mp (by decide)
  exact absurd h2.2.1 (by decide)

/-- C9 amended: the exit status is 0 exactly when the supervisory loop
exited with its success flag intact (shutdown was requested before the
poll ever observed a dead worker); when the poll observed a dead worker
the loop exits with status 1 — in particular any worker death that
happens while the loop is still polling healthy workers forces status 1.
Worker deaths after the kill flag is set are never observed and do not
affect the status. -/
theorem main_exit_amended :
    (∀ (obs : List SupObs) (j : JoinInfo),
      (mainExit obs j = some 0 ↔ superviseLoop obs false true = some true) ∧
      (superviseLoop obs false true = some false → mainExit obs j = some 1)) ∧
    (∀ (pre : List SupObs) (o : SupObs) (post : List SupObs) (j : JoinInfo),
      (∀ p ∈ pre, p.killNow = false ∧ p.displayAlive = true ∧ p.buttonAlive = true) →
      o.killNow = false → (o.displayAlive = false ∨ o.buttonAlive = false) →
      mainExit (pre ++ o :: post) j = some 1) :=
  ⟨mainExit_eq, fun pre => mainExit_dead_observed pre⟩

/-- Witness for the images_differ theorem at concrete bitmaps: a 1x1 and
a 2x1 bitmap differ by size, and two 1x1 bitmaps with one differing
pixel satisfy the pixel-difference equivalence. -/
theorem images_differ_spec_witness :
    images_differ (some { width := 1, height := 1, pixels := [0] })
      (some { width := 2, height := 1, pixels := [0, 0] }) = true ∧
    (images_differ (some { width := 1, height := 1, pixels := [0] })
      (some { width := 1, height := 1, pixels := [5] }) = true ↔
      ∃ k, ({ width := 1, height := 1, pixels := [0] } : PILImage).pixels.get? k ≠
        ({ width := 1, height := 1, pixels := [5] } : PILImage).pixels.get? k) :=
  ⟨images_differ_spec.2.2.2.1 _ _ (by decide),
   images_differ_spec.2.2.2.2 _ _ (by decide) (by decide) (by decide)⟩

/-- Witness for the navigation-invariant theorem on a concrete topology
of two apps with 1 and 3 screens and a concrete operation sequence. -/
theorem nav_sequences_preserve_invariant_witness :
    ∃ s2, applyNavOps (some { apps := [{ nb_screens := 1 }, { nb_screens := 3 }] })
        [NavOp.nextApp 5, NavOp.nextScreen, NavOp.autoAdvance 9, NavOp.nextScreen]
        (DisplayState.init 0) = Except.ok s2 ∧
      NavInv { apps := [{ nb_screens := 1 }, { nb_screens := 3 }] } s2 :=
  nav_sequences_preserve_invariant { apps := [{ nb_screens := 1 }, { nb_screens := 3 }] }
    [NavOp.nextApp 5, NavOp.nextScreen, NavOp.autoAdvance 9, NavOp.nextScreen]
    (DisplayState.init 0) (by decide) rfl (by decide)

/-- Witness for the should_update theorem at a concrete state with the
forced-update flag set and a check recorded at time 10. -/
theorem should_update_spec_witness :
    should_update 100
      { current_app := 0, current_screen_per_app := fun _ => none, metainfo := none,
        last_online_check := some 10, last_image := none, force_update := true,
        last_app_switch := 0 } =
      (true,
        { current_app := 0, current_screen_per_app := fun _ => none, metainfo := none,
          last_online_check := some 10, last_image := none, force_update := false,
          last_app_switch := 0 }) ∧
    ((should_update 200 (should_update 100
      { current_app := 0, current_screen_per_app := fun _ => none, metainfo := none,
        last_online_check := some 10, last_image := none, force_update := true,
        last_app_switch := 0 }).2).1 = true ↔ 200 - 10 > 60) :=
  ⟨(should_update_spec 100 200
      { current_app := 0, current_screen_per_app := fun _ => none, metainfo := none,
        last_online_check := some 10, last_image := none, force_update := true,
        last_app_switch := 0 }).1 rfl,
   (should_update_spec 100 200
      { current_app := 0, current_screen_per_app := fun _ => none, metainfo := none,
        last_online_check := some 10, last_image := none, force_update := true,
        last_app_switch := 0 }).2.2.2.1 rfl 10 rfl⟩

/-- Witness for the app-advance theorem on a concrete topology of two
apps with 2 and 3 screens, starting from the initial state. -/
theorem switch_to_next_app_spec_witness :
    ∃ s2, switch_to_next_app (some { apps := [{ nb_screens := 2 }, { nb_screens := 3 }] }) 7
        (DisplayState.init 0) = Except.ok s2 ∧
      s2.current_app = ((DisplayState.init 0).current_app + 1) %
        ({ apps := [{ nb_screens := 2 }, { nb_screens := 3 }] } : MetaInfo).apps.length ∧
      ((DisplayState.init 0).current_app =
          ({ apps := [{ nb_screens := 2 }, { nb_screens := 3 }] } : MetaInfo).apps.length - 1 →
        s2.current_app = 0) ∧
      s2.last_app_switch = 7 ∧
      s2.force_update = true ∧
      s2.current_screen_per_app s2.current_app =
        some (((DisplayState.init 0).current_screen_per_app s2.current_app).getD 0
          % nbScreensAt { apps := [{ nb_screens := 2 }, { nb_screens := 3 }] } s2.current_app) ∧
      (∀ k, k ≠ s2.current_app →
        s2.current_screen_per_app k = (DisplayState.init 0).current_screen_per_app k) :=
  switch_to_next_app_spec { apps := [{ nb_screens := 2 }, { nb_screens := 3 }] } 7
    (DisplayState.init 0) (by decide) rfl

/-- Witness for the screen-advance theorem on the same concrete
topology, starting from the initial state. -/
theorem switch_to_next_screen_spec_witness :
    (∃ s2, switch_to_next_screen (some { apps := [{ nb_screens := 2 }, { nb_screens := 3 }] })
        (DisplayState.init 0) = Except.ok s2 ∧
      s2.current_app = (DisplayState.init 0).current_app ∧
      s2.force_update = true ∧
      s2.current_screen_per_app (DisplayState.init 0).current_app =
        some ((((DisplayState.init 0).current_screen_per_app
            (DisplayState.init 0).current_app).getD 0 + 1)
          % nbScreensAt { apps := [{ nb_screens := 2 }, { nb_screens := 3 }] }
            (DisplayState.init 0).current_app) ∧
      (∀ k, k ≠ (DisplayState.init 0).current_app →
        s2.current_screen_per_app k = (DisplayState.init 0).current_screen_per_app k)) ∧
    (∀ now s2, switch_to_next_app
        (some { apps := [{ nb_screens := 2 }, { nb_screens := 3 }] }) now
        (DisplayState.init 0) = Except.ok s2 →
      ∀ k v, (DisplayState.init 0).current_screen_per_app k = some v →
        s2.current_screen_per_app k = some v) :=
  switch_to_next_screen_spec { apps := [{ nb_screens := 2 }, { nb_screens := 3 }] }
    (DisplayState.init 0) (by decide) rfl (by decide)

/-- Witness for the hardware-release theorem on a concrete schedule that
observes the kill flag on the first iteration. -/
theorem hardware_release_spec_witness :
    (run none { initOk := true, displayOk := true }
      [{ killNow := true, now := 0, fetchResult := none }]
      (DisplayState.init 0)).1.isExit = true ∧
    RunEvent.moduleExit ∈ (run none { initOk := true, displayOk := true }
      [{ killNow := true, now := 0, fetchResult := none }]
      (DisplayState.init 0)).2 :=
  ⟨by decide,
   hardware_release_spec.2 none { initOk := true, displayOk := true }
     [{ killNow := true, now := 0, fetchResult := none }]
     (DisplayState.init 0) (by decide)⟩

/-- Witness for the amended exit-status theorem: a dead display worker
observed on the first poll yields exit status 1. -/
theorem main_exit_amended_witness :
    mainExit [{ killNow := false, displayAlive := false, buttonAlive := true }]
      { displayClean := true, buttonClean := true } = some 1 :=
  main_exit_amended.2 [] { killNow := false, displayAlive := false, buttonAlive := true } []
    { displayClean := true, buttonClean := true } (by simp) rfl (Or.inl rfl)

/-- Witness for the app-advance partial-mutation theorem at a concrete
time and the initial state, with the metadata fetch failing. -/
theorem switch_to_next_app_metadata_failure_witness :
    ∃ s2, switch_to_next_app none 42 (DisplayState.init 0) = Except.error s2 ∧
      s2.last_app_switch = 42 ∧
      s2.current_app = (DisplayState.init 0).current_app ∧
      s2.current_screen_per_app = (DisplayState.init 0).current_screen_per_app ∧
      s2.force_update = (DisplayState.init 0).force_update ∧
      s2.last_image = (DisplayState.init 0).last_image ∧
      s2.last_online_check = (DisplayState.init 0).last_online_check :=
  switch_to_next_app_metadata_failure 42 (DisplayState.init 0) rfl

/-- Witness for the metainfo-caching theorem at a concrete topology and
the initial state: the call fetches once and leaves the cache field
empty, so the immediately repeated call fetches again. -/
theorem get_metainfo_no_caching_witness :
    (DisplayState.init 0).metainfo = none ∧
    get_metainfo (some { apps := [{ nb_screens := 2 }] }) (DisplayState.init 0) =
      Except.ok (some { apps := [{ nb_screens := 2 }] }, DisplayState.init 0, 1) ∧
    ((DisplayState.init 0).metainfo = none ∧ 1 = 1) :=
  ⟨rfl,
   (get_metainfo_no_caching { apps := [{ nb_screens := 2 }] } { apps := [] }
     (DisplayState.init 0)).1 rfl,
   (get_metainfo_no_caching { apps := [{ nb_screens := 2 }] } { apps := [] }
     (DisplayState.init 0)).2.1
     (some { apps := [{ nb_screens := 2 }] }) (DisplayState.init 0) 1 rfl
     ((get_metainfo_no_caching { apps := [{ nb_screens := 2 }] } { apps := [] }
       (DisplayState.init 0)).1 rfl)⟩
